import Mathlib

/-!
Shallow embedding of the fee-model core of `src/app.py` (a Streamlit app).
Numeric values are modelled as exact rationals; Python's `round(x, n)`
(round-half-even to `n` decimal places) is modelled by `roundTo`.
-/

namespace FeeModel

set_option maxRecDepth 1000000

/-- The input parameters of the model, as read from the sidebar sliders
(lines 15-40 of `app.py`). -/
structure ParameterSet where
  deposit_amount : ℚ
  provider_fee_pct : ℚ
  provider_fee_fixed : ℚ
  house_edge_pct : ℚ
  redemption_fee_cap_pct : ℚ
  cashback_pct : ℚ
  playthrough : ℚ
  luck_factor : ℚ
  deriving DecidableEq

/-- The documented ranges of the parameters (spec section 3 table). -/
def InRange (p : ParameterSet) : Prop :=
  0 ≤ p.deposit_amount ∧ p.deposit_amount ≤ 9000 ∧
  0 ≤ p.provider_fee_pct ∧ p.provider_fee_pct ≤ 10 ∧
  0 ≤ p.provider_fee_fixed ∧ p.provider_fee_fixed ≤ 1 ∧
  1/2 ≤ p.house_edge_pct ∧ p.house_edge_pct ≤ 10 ∧
  0 ≤ p.redemption_fee_cap_pct ∧ p.redemption_fee_cap_pct ≤ 10 ∧
  0 ≤ p.cashback_pct ∧ p.cashback_pct ≤ 5 ∧
  1 ≤ p.playthrough ∧ p.playthrough ≤ 20 ∧
  0 ≤ p.luck_factor ∧ p.luck_factor ≤ 2

instance (p : ParameterSet) : Decidable (InRange p) := by
  unfold InRange; infer_instance

/-- Python's `round` to an integer: round half to even (banker's rounding). -/
def roundHalfEven (x : ℚ) : ℤ :=
  let f : ℤ := ⌊x⌋
  if x - f < 1/2 then f
  else if 1/2 < x - f then f + 1
  else if f % 2 = 0 then f else f + 1

/-- Python's `round(x, n)`: round to `n` decimal places, half to even. -/
def roundTo (n : ℕ) (x : ℚ) : ℚ :=
  (roundHalfEven (x * 10 ^ n) : ℚ) / 10 ^ n

/-! Single-scenario computation, `app.py` lines 31-57. -/

/-- Line 31: `fee_incurred = deposit_amount * (provider_fee_pct / 100) + provider_fee_fixed`. -/
def fee_incurred (p : ParameterSet) : ℚ :=
  p.deposit_amount * (p.provider_fee_pct / 100) + p.provider_fee_fixed

/-- Line 32: `total_wagered = deposit_amount * playthrough`. -/
def total_wagered (p : ParameterSet) : ℚ :=
  p.deposit_amount * p.playthrough

/-- Line 33: `theoretical_edge = total_wagered * (house_edge_pct / 100)`. -/
def theoretical_edge (p : ParameterSet) : ℚ :=
  total_wagered p * (p.house_edge_pct / 100)

/-- Lines 45-46: `actual_losses = max(0, theoretical_edge * (2 - luck_factor))`. -/
def actual_losses (p : ParameterSet) : ℚ :=
  max 0 (theoretical_edge p * (2 - p.luck_factor))

/-- Lines 48-49: `redemption_amount = max(0, deposit_amount - actual_losses)`. -/
def redemption_amount (p : ParameterSet) : ℚ :=
  max 0 (p.deposit_amount - actual_losses p)

/-- Lines 52-53: `uncovered_cost = max(0, fee_incurred - max(theoretical_edge, actual_losses))`. -/
def uncovered_cost (p : ParameterSet) : ℚ :=
  max 0 (fee_incurred p - max (theoretical_edge p) (actual_losses p))

/-- Line 54: `fee_cap = redemption_fee_cap_pct / 100 * redemption_amount`. -/
def fee_cap (p : ParameterSet) : ℚ :=
  p.redemption_fee_cap_pct / 100 * redemption_amount p

/-- Line 55: `processing_fee = min(fee_cap, uncovered_cost)`. -/
def processing_fee (p : ParameterSet) : ℚ :=
  min (fee_cap p) (uncovered_cost p)

/-- Line 57: `net_redemption = redemption_amount - processing_fee`. -/
def net_redemption (p : ParameterSet) : ℚ :=
  redemption_amount p - processing_fee p

/-- Line 84: `deposits = np.arange(50, 9050, 50)`, i.e. 50, 100, ..., 9000. -/
def deposits : List ℚ :=
  (List.range 180).map fun i => ((50 * (i + 1) : ℕ) : ℚ)

/-! Abuser-analysis sweep table, `app.py` lines 84-114. The dict appended for
each deposit stores the `round(_, 2)` of every money value except the deposit. -/

namespace AbuserTable

/-- One row of the abuser-analysis dataframe (`rows.append({...})`, lines 97-105). -/
structure Row where
  deposit : ℚ
  provider_cost : ℚ
  edge_loss : ℚ
  uncovered : ℚ
  fee_charged : ℚ
  cashback : ℚ
  abuser_profit : ℚ
  deriving DecidableEq

/-- Line 87: `fi = d * (provider_fee_pct / 100) + provider_fee_fixed`. -/
def fi (p : ParameterSet) (d : ℚ) : ℚ :=
  d * (p.provider_fee_pct / 100) + p.provider_fee_fixed

/-- Line 88: `tw = d * 1.0` (the sweep hard-codes 1x playthrough). -/
def tw (d : ℚ) : ℚ := d * 1

/-- Line 89: `te = tw * (house_edge_pct / 100)`. -/
def te (p : ParameterSet) (d : ℚ) : ℚ := tw d * (p.house_edge_pct / 100)

/-- Line 90: `losses = te` (average player loses the expected edge). -/
def losses (p : ParameterSet) (d : ℚ) : ℚ := te p d

/-- Line 91: `redemption = d - losses`. -/
def redemption (p : ParameterSet) (d : ℚ) : ℚ := d - losses p d

/-- Line 92: `uc = max(0, fi - losses)`. -/
def uc (p : ParameterSet) (d : ℚ) : ℚ := max 0 (fi p d - losses p d)

/-- Line 93: `cap = redemption_fee_cap_pct / 100 * redemption`. -/
def cap (p : ParameterSet) (d : ℚ) : ℚ :=
  p.redemption_fee_cap_pct / 100 * redemption p d

/-- Line 94: `fee = min(cap, uc)`. -/
def fee (p : ParameterSet) (d : ℚ) : ℚ := min (cap p d) (uc p d)

/-- Line 95: `cashback = d * (cashback_pct / 100)`. -/
def cashback (p : ParameterSet) (d : ℚ) : ℚ := d * (p.cashback_pct / 100)

/-- Line 96: `profit = cashback - fee - losses`. -/
def profit (p : ParameterSet) (d : ℚ) : ℚ :=
  cashback p d - fee p d - losses p d

/-- Lines 97-105: the appended dict, money values rounded to 2 decimals. -/
def row (p : ParameterSet) (d : ℚ) : Row where
  deposit := d
  provider_cost := roundTo 2 (fi p d)
  edge_loss := roundTo 2 (losses p d)
  uncovered := roundTo 2 (uc p d)
  fee_charged := roundTo 2 (fee p d)
  cashback := roundTo 2 (cashback p d)
  abuser_profit := roundTo 2 (profit p d)

/-- Lines 85-105: the loop `for d in deposits` building the dataframe rows. -/
def rows (p : ParameterSet) (ds : List ℚ) : List Row :=
  ds.map (row p)

/-- Line 110: `profitable = df[df["Abuser Profit"] > 0]` — the filter runs on the
rounded column stored in the dataframe. -/
def profitable (p : ParameterSet) (ds : List ℚ) : List Row :=
  (rows p ds).filter fun r => 0 < r.abuser_profit

/-- Lines 111-112: `len(profitable)`. -/
def profitableCount (p : ParameterSet) (ds : List ℚ) : ℕ :=
  (profitable p ds).length

end AbuserTable

/-! Break-even curve, `app.py` lines 125-142, and the crossover scan,
lines 163-168. -/

namespace BreakEvenCurve

/-- One row of the curve dataframe (`curve_rows.append({...})`, lines 139-142);
the profit percentage is stored rounded to 3 decimals. -/
structure Row where
  deposit : ℚ
  profit_pct : ℚ
  deriving DecidableEq

/-- Line 129: `fi = d * (provider_fee_pct / 100) + provider_fee_fixed`. -/
def fi (p : ParameterSet) (d : ℚ) : ℚ :=
  d * (p.provider_fee_pct / 100) + p.provider_fee_fixed

/-- Line 130: `te = d * (house_edge_pct / 100)`. -/
def te (p : ParameterSet) (d : ℚ) : ℚ := d * (p.house_edge_pct / 100)

/-- Line 131: `losses = te`. -/
def losses (p : ParameterSet) (d : ℚ) : ℚ := te p d

/-- Line 132: `redemption = d - losses`. -/
def redemption (p : ParameterSet) (d : ℚ) : ℚ := d - losses p d

/-- Line 133: `uc = max(0, fi - losses)`. -/
def uc (p : ParameterSet) (d : ℚ) : ℚ := max 0 (fi p d - losses p d)

/-- Line 134: `cap = redemption_fee_cap_pct / 100 * redemption`. -/
def cap (p : ParameterSet) (d : ℚ) : ℚ :=
  p.redemption_fee_cap_pct / 100 * redemption p d

/-- Line 135: `fee = min(cap, uc)`. -/
def fee (p : ParameterSet) (d : ℚ) : ℚ := min (cap p d) (uc p d)

/-- Line 136: `cashback = d * (cashback_pct / 100)`. -/
def cashback (p : ParameterSet) (d : ℚ) : ℚ := d * (p.cashback_pct / 100)

/-- Line 137: `profit = cashback - fee - losses`. -/
def profit (p : ParameterSet) (d : ℚ) : ℚ :=
  cashback p d - fee p d - losses p d

/-- Line 138: `profit_pct = (profit / d) * 100` (unrounded). -/
def profit_pct (p : ParameterSet) (d : ℚ) : ℚ :=
  profit p d / d * 100

/-- Lines 139-142: the appended dict, percentage rounded to 3 decimals. -/
def row (p : ParameterSet) (d : ℚ) : Row where
  deposit := d
  profit_pct := roundTo 3 (profit_pct p d)

/-- Lines 126-142: the loop `for d in deposits` with `if d == 0: continue`. -/
def rows (p : ParameterSet) (ds : List ℚ) : List Row :=
  ds.filterMap fun d => if d = 0 then none else some (row p d)

/-- Lines 163-168: linear scan for the first curve row whose stored (rounded)
profit percentage is `> 0`; `None` when no row matches. -/
def crossover (p : ParameterSet) (ds : List ℚ) : Option ℚ :=
  ((rows p ds).find? fun r => 0 < r.profit_pct).map fun r => r.deposit

end BreakEvenCurve

/-! The zero-loss ("worst case") sweep variant. It is part of this repository
but not of the code under `src/`, so it is modelled from the spec. -/

namespace ZeroLoss

/-- One row of the zero-loss sweep. -/
structure Row where
  deposit : ℚ
  fee_incurred : ℚ
  theoretical_edge : ℚ
  loss_term : ℚ
  redemption : ℚ
  uncovered : ℚ
  fee_cap : ℚ
  fee_charged : ℚ
  cashback : ℚ
  abuser_profit : ℚ
  deriving DecidableEq

/-- Modelled from the spec: the `ZeroLoss` sweep pipeline is absent from
`src/app.py` (spec sections 4.2 and 9 describe it as a near-duplicate pipeline of
the expected-loss one). Per spec 4.2: `fee_incurred` and `theoretical_edge` are
computed at playthrough 1; `loss_term = 0`; `redemption = deposit`;
`uncovered = max(0, fee_incurred - max(theoretical_edge, 0))`;
`fee_cap = redemption_fee_cap_pct/100 * redemption`;
`fee_charged = min(fee_cap, uncovered)`; `cashback = deposit * cashback_pct/100`;
`abuser_profit = cashback - fee_charged`. -/
def row (p : ParameterSet) (d : ℚ) : Row :=
  let fee_incurred := d * (p.provider_fee_pct / 100) + p.provider_fee_fixed
  let theoretical_edge := d * 1 * (p.house_edge_pct / 100)
  let loss_term : ℚ := 0
  let redemption := d
  let uncovered := max 0 (fee_incurred - max theoretical_edge 0)
  let fee_cap := p.redemption_fee_cap_pct / 100 * redemption
  let fee_charged := min fee_cap uncovered
  let cashback := d * (p.cashback_pct / 100)
  { deposit := d
    fee_incurred := fee_incurred
    theoretical_edge := theoretical_edge
    loss_term := loss_term
    redemption := redemption
    uncovered := uncovered
    fee_cap := fee_cap
    fee_charged := fee_charged
    cashback := cashback
    abuser_profit := cashback - fee_charged }

/-- Modelled from the spec: the zero-loss sweep applies `row` across the swept
deposit range, one row per deposit in input order (spec 4.2). -/
def rows (p : ParameterSet) (ds : List ℚ) : List Row :=
  ds.map (row p)

end ZeroLoss

/-! Concrete parameter sets used in worked examples and counterexamples. -/

/-- The spec's worked-example parameters: deposit 100, provider fee 2.9% + $0.30,
house edge 2%, cap 5%, cashback 2%, playthrough 1, luck 1. -/
def demoParams : ParameterSet := ⟨100, 29/10, 3/10, 2, 5, 2, 1, 1⟩

/-- In-range parameters whose sweep profit is `0.000004 * d`: positive at every
deposit but rounding to 2 decimals keeps small deposits at 0.00 and the profit
percentage (a constant 0.0004%) rounds to 0.000 at 3 decimals everywhere. -/
def tinyProfitParams : ParameterSet := ⟨100, 0, 3/10, 2, 5, 5001/2500, 1, 1⟩

/-- In-range parameters whose sweep profit at deposit 50 is exactly 0.004:
positive at full precision but 0.00 after rounding to 2 decimals. -/
def roundingGapParams : ParameterSet := ⟨100, 0, 3/10, 1/2, 5, 76/125, 1, 1⟩

/-! Theorems about the claims. -/

/-- Claim C1: for every ParameterSet inside the documented ranges, the
single-scenario computation satisfies the eight stated inequalities. -/
theorem single_scenario_invariants (p : ParameterSet) (h : InRange p) :
    0 ≤ fee_incurred p ∧ 0 ≤ actual_losses p ∧ 0 ≤ redemption_amount p ∧
    0 ≤ uncovered_cost p ∧ 0 ≤ processing_fee p ∧
    processing_fee p ≤ uncovered_cost p ∧ processing_fee p ≤ fee_cap p ∧
    net_redemption p ≤ redemption_amount p := by
  obtain ⟨hd0, -, hp0, -, hf0, -, -, -, hc0, -, -, -, -, -, -, -⟩ := h
  have hfee : 0 ≤ fee_incurred p :=
    add_nonneg (mul_nonneg hd0 (div_nonneg hp0 (by norm_num))) hf0
  have hloss : 0 ≤ actual_losses p := le_max_left 0 _
  have hred : 0 ≤ redemption_amount p := le_max_left 0 _
  have hunc : 0 ≤ uncovered_cost p := le_max_left 0 _
  have hcap : 0 ≤ fee_cap p := mul_nonneg (div_nonneg hc0 (by norm_num)) hred
  have hpf : 0 ≤ processing_fee p := le_min hcap hunc
  exact ⟨hfee, hloss, hred, hunc, hpf, min_le_right _ _, min_le_left _ _,
    sub_le_self _ hpf⟩

/-- Witness for claim C1: the worked-example parameters are in range and
satisfy the invariants. -/
theorem single_scenario_invariants_holds :
    InRange demoParams ∧
    (0 ≤ fee_incurred demoParams ∧ 0 ≤ actual_losses demoParams ∧
      0 ≤ redemption_amount demoParams ∧ 0 ≤ uncovered_cost demoParams ∧
      0 ≤ processing_fee demoParams ∧
      processing_fee demoParams ≤ uncovered_cost demoParams ∧
      processing_fee demoParams ≤ fee_cap demoParams ∧
      net_redemption demoParams ≤ redemption_amount demoParams) :=
  ⟨by with_unfolding_all decide,
    single_scenario_invariants demoParams (by with_unfolding_all decide)⟩

/-- Claim C2: the worked single-scenario example evaluates exactly to the
figures stated in the spec. -/
theorem worked_example_single_scenario :
    fee_incurred demoParams = 3.20 ∧ theoretical_edge demoParams = 2.00 ∧
    actual_losses demoParams = 2.00 ∧ redemption_amount demoParams = 98.00 ∧
    uncovered_cost demoParams = 1.20 ∧ fee_cap demoParams = 4.90 ∧
    processing_fee demoParams = 1.20 ∧ net_redemption demoParams = 96.80 := by
  with_unfolding_all decide

/-- Claim C3 as stated is false: with `tinyProfitParams` the crossover scan
(which tests the curve's profit percentage rounded to 3 decimals) returns
`none`, while the profitability analysis (which tests the table's profit
rounded to 2 decimals) reports a nonzero profitable count. -/
theorem crossover_none_with_nonzero_profitable_count :
    InRange tinyProfitParams ∧
    BreakEvenCurve.crossover tinyProfitParams deposits = none ∧
    AbuserTable.profitableCount tinyProfitParams deposits ≠ 0 := by
  with_unfolding_all decide

/-- Claim C3 amended: crossover detection returns `none` if and only if no
break-even-curve row has a positive stored (3-decimal-rounded) profit
percentage. This condition is not equivalent to `profitable_count == 0`,
which is computed from the table's 2-decimal-rounded profits. -/
theorem crossover_none_iff_no_positive_curve_row (p : ParameterSet)
    (ds : List ℚ) :
    BreakEvenCurve.crossover p ds = none ↔
      ∀ r ∈ BreakEvenCurve.rows p ds, ¬ 0 < r.profit_pct := by
  simp [BreakEvenCurve.crossover, List.find?_eq_none]

/-- Claim C4 as stated is false: with `tinyProfitParams` the first sweep
deposit, 50, has strictly positive unrounded abuser profit, yet the crossover
scan returns `none` (it tests the rounded profit percentage, not the
unrounded profit). -/
theorem crossover_misses_unrounded_profit :
    InRange tinyProfitParams ∧
    (50:ℚ) ∈ deposits ∧ 0 < BreakEvenCurve.profit tinyProfitParams 50 ∧
    0 < AbuserTable.profit tinyProfitParams 50 ∧
    BreakEvenCurve.crossover tinyProfitParams deposits = none := by
  with_unfolding_all decide

/-- Claim C4 amended: `crossover` is a linear first-occurrence scan that
returns the deposit of the first curve row, in input order, whose stored
(3-decimal-rounded) profit percentage is strictly positive, and `none`
exactly when no such row exists. -/
theorem crossover_eq_first_rounded_positive (p : ParameterSet) (ds : List ℚ)
    (x : ℚ) :
    BreakEvenCurve.crossover p ds = some x ↔
      ∃ pre r post, BreakEvenCurve.rows p ds = pre ++ r :: post ∧
        0 < r.profit_pct ∧ r.deposit = x ∧
        ∀ r2 ∈ pre, ¬ 0 < r2.profit_pct := by
  simp only [BreakEvenCurve.crossover, Option.map_eq_some', List.find?_eq_some]
  constructor
  · rintro ⟨r, ⟨hpos, pre, post, hsplit, hpre⟩, hdep⟩
    refine ⟨pre, r, post, hsplit, by simpa using hpos, hdep, ?_⟩
    intro r2 h2
    simpa using hpre r2 h2
  · rintro ⟨pre, r, post, hsplit, hpos, hdep, hpre⟩
    refine ⟨r, ⟨by simpa using hpos, pre, post, hsplit, ?_⟩, hdep⟩
    intro r2 h2
    simpa using hpre r2 h2

/-- Claim C5: the zero-loss sweep variant (modelled from the spec, see
`ZeroLoss.row`) has `loss_term = 0` and `redemption = deposit`, and at
deposit 100 with the worked-example parameters it yields fee_charged 1.20,
cashback 2.00 and abuser_profit 0.80; the expected-loss variant applied to
the same ParameterSet yields its own figures (fee_charged 1.20,
abuser_profit −1.20), so both variants are reproducible from one
ParameterSet. -/
theorem zero_loss_worked_example :
    (ZeroLoss.row demoParams 100).loss_term = 0 ∧
    (ZeroLoss.row demoParams 100).redemption = 100 ∧
    (ZeroLoss.row demoParams 100).fee_charged = 1.20 ∧
    (ZeroLoss.row demoParams 100).cashback = 2.00 ∧
    (ZeroLoss.row demoParams 100).abuser_profit = 0.80 ∧
    AbuserTable.fee demoParams 100 = 1.20 ∧
    AbuserTable.profit demoParams 100 = -1.20 := by
  with_unfolding_all decide

/-- Claim C6: over the default deposit range the sweep produces exactly 180
rows whose deposit keys are `deposits` itself, in strictly ascending order. -/
theorem sweep_has_180_ascending_rows (p : ParameterSet) :
    (AbuserTable.rows p deposits).length = 180 ∧
    (AbuserTable.rows p deposits).map AbuserTable.Row.deposit = deposits ∧
    ((AbuserTable.rows p deposits).map AbuserTable.Row.deposit).Chain'
      (· < ·) := by
  have hmap : (AbuserTable.rows p deposits).map AbuserTable.Row.deposit
      = deposits := by
    simp [AbuserTable.rows, List.map_map, Function.comp_def, AbuserTable.row]
  refine ⟨?_, hmap, ?_⟩
  · simp only [AbuserTable.rows, deposits, List.length_map, List.length_range]
  · rw [hmap]
    unfold deposits
    rw [List.chain'_map, show (180:ℕ) = 179 + 1 from rfl,
      List.chain'_range_succ]
    intro m _
    exact_mod_cast (by omega : 50 * (m + 1) < 50 * (m + 1 + 1))

/-- Claim C7: neither sweep pipeline reads the playthrough multiplier (the
table hard-codes `1x` playthrough); two ParameterSets differing only in
`playthrough` produce identical sweep output. -/
theorem sweep_ignores_playthrough (p : ParameterSet) (x : ℚ) (ds : List ℚ) :
    AbuserTable.rows { p with playthrough := x } ds = AbuserTable.rows p ds ∧
    BreakEvenCurve.rows { p with playthrough := x } ds
      = BreakEvenCurve.rows p ds :=
  ⟨rfl, rfl⟩

/-- The curve loop's `continue` on `d == 0` is a filter followed by a map. -/
theorem curve_rows_eq_map_filter (p : ParameterSet) (ds : List ℚ) :
    BreakEvenCurve.rows p ds
      = (ds.filter fun d => ¬ d = 0).map (BreakEvenCurve.row p) := by
  induction ds with
  | nil => rfl
  | cons d t ih =>
    simp only [BreakEvenCurve.rows, List.filterMap_cons, List.filter_cons]
      at ih ⊢
    by_cases hd : d = 0
    · simp [hd, ih]
    · simp [hd, ih]

/-- Claim C8 as stated is false: with `roundingGapParams` the profitability
analysis (which filters the dataframe's 2-decimal-rounded profit column)
counts 179 profitable deposits, while at full precision all 180 swept
deposits have strictly positive abuser profit. -/
theorem profitable_count_uses_rounded_profit :
    InRange roundingGapParams ∧
    AbuserTable.profitableCount roundingGapParams deposits = 179 ∧
    (deposits.filter fun d =>
      0 < AbuserTable.profit roundingGapParams d).length = 180 := by
  with_unfolding_all decide

/-- Claim C8 amended: money values are rounded to 2 decimals and the profit
percentage to 3 decimals when the rows are built, and both the profitability
analysis and the crossover scan operate on these stored rounded values:
`profitable_count` counts the deposits whose 2-decimal-rounded profit is
positive, and `crossover` finds the first nonzero deposit whose
3-decimal-rounded profit percentage is positive. -/
theorem analysis_reads_rounded_row_values (p : ParameterSet) (ds : List ℚ) :
    AbuserTable.profitableCount p ds
      = (ds.filter fun d => 0 < roundTo 2 (AbuserTable.profit p d)).length ∧
    BreakEvenCurve.crossover p ds
      = (ds.filter fun d => ¬ d = 0).find? fun d =>
          0 < roundTo 3 (BreakEvenCurve.profit_pct p d) := by
  constructor
  · simp [AbuserTable.profitableCount, AbuserTable.profitable,
      AbuserTable.rows, List.filter_map, Function.comp_def, AbuserTable.row]
  · rw [BreakEvenCurve.crossover, curve_rows_eq_map_filter, List.find?_map]
    rw [Option.map_map]
    simp [Function.comp_def, BreakEvenCurve.row]

/-- Claim C9: every row of the break-even curve has a nonzero deposit (the
loop skips `d == 0`), and its stored percentage is the rounded
`profit / deposit * 100` — the division is never performed on a zero
divisor. -/
theorem curve_rows_exclude_zero_deposit (p : ParameterSet) (ds : List ℚ)
    (r : BreakEvenCurve.Row) (hr : r ∈ BreakEvenCurve.rows p ds) :
    r.deposit ≠ 0 ∧
    r.profit_pct = roundTo 3
      (BreakEvenCurve.profit p r.deposit / r.deposit * 100) := by
  simp only [BreakEvenCurve.rows, List.mem_filterMap] at hr
  obtain ⟨d, -, heq⟩ := hr
  by_cases hd : d = 0
  · simp [hd] at heq
  · rw [if_neg hd] at heq
    cases Option.some.inj heq
    exact ⟨hd, rfl⟩

/-- Witness for claim C9: the curve row built at deposit 100 from the
worked-example parameters. -/
theorem curve_rows_exclude_zero_deposit_holds :
    (BreakEvenCurve.row demoParams 100).deposit ≠ 0 ∧
    (BreakEvenCurve.row demoParams 100).profit_pct = roundTo 3
      (BreakEvenCurve.profit demoParams
        (BreakEvenCurve.row demoParams 100).deposit
        / (BreakEvenCurve.row demoParams 100).deposit * 100) :=
  curve_rows_exclude_zero_deposit demoParams [100]
    (BreakEvenCurve.row demoParams 100) (by with_unfolding_all decide)

/-- Claim C10: the abuser-analysis table and the break-even curve compute the
same unrounded profit — for every positive deposit, the table's profit equals
the curve's unrounded profit percentage times `deposit / 100`. -/
theorem table_and_curve_profits_agree (p : ParameterSet) (d : ℚ)
    (hd : 0 < d) :
    AbuserTable.profit p d = BreakEvenCurve.profit_pct p d * d / 100 := by
  have hne : d ≠ 0 := ne_of_gt hd
  have hagree : AbuserTable.profit p d = BreakEvenCurve.profit p d := by
    simp [AbuserTable.profit, BreakEvenCurve.profit, AbuserTable.fee,
      BreakEvenCurve.fee, AbuserTable.cap, BreakEvenCurve.cap, AbuserTable.uc,
      BreakEvenCurve.uc, AbuserTable.fi, BreakEvenCurve.fi, AbuserTable.losses,
      BreakEvenCurve.losses, AbuserTable.te, BreakEvenCurve.te, AbuserTable.tw,
      AbuserTable.cashback, BreakEvenCurve.cashback, AbuserTable.redemption,
      BreakEvenCurve.redemption, mul_one]
  rw [hagree, BreakEvenCurve.profit_pct]
  field_simp

/-- Witness for claim C10: the pipelines agree at deposit 100 with the
worked-example parameters. -/
theorem table_and_curve_profits_agree_holds :
    (0:ℚ) < 100 ∧ AbuserTable.profit demoParams 100
      = BreakEvenCurve.profit_pct demoParams 100 * 100 / 100 :=
  ⟨by norm_num, table_and_curve_profits_agree demoParams 100 (by norm_num)⟩

end FeeModel
